import Mathlib

/-!
Verification of `scripts/spot_perp_arb.py` (SpotPerpArb strategy).

The strategy is embedded shallowly: Python `Decimal`/`float` arithmetic is
modelled as exact rationals (`ℚ`), timestamps as `ℕ`, and the external
connectors (price oracle, balance oracle, order gateway) as an explicit
environment.  Python exceptions (AttributeError from reading a never-assigned
attribute, AssertionError, DivisionByZero in `Decimal` division, and errors
raised by a connector read) are modelled with `Except` / an error component;
side effects performed before an exception is raised (orders already
submitted, fields already mutated) are kept, matching Python semantics.
-/

/-- Class-body constant `spot_connector = "kucoin"`. -/
def spot_connector : String := "kucoin"

/-- Class-body constant `perp_connector = "kucoin_perpetual"`. -/
def perp_connector : String := "kucoin_perpetual"

/-- Modelled from the spec: `split_hb_trading_pair` (from
`hummingbot.connector.utils`, not under the sources given) splits the
trading-pair identifier `"LINA-USDT"` into its base and quote assets;
the spec's data model describes a Trading Pair as a (base, quote) pair.
Base asset of the configured pair. -/
def base_asset : String := "LINA"

/-- Modelled from the spec (see `base_asset`): quote asset of the pair. -/
def quote_asset : String := "USDT"

/-- Class-body constant `base_order_amount = Decimal("100")`. -/
def base_order_amount : ℚ := 100

/-- Class-body constant `buy_spot_short_perp_profit_margin_bps = 20`. -/
def buy_spot_short_perp_profit_margin_bps : ℚ := 20

/-- Class-body constant `sell_spot_long_perp_profit_margin_bps = 20`. -/
def sell_spot_long_perp_profit_margin_bps : ℚ := 20

/-- Class-body constant `slippage_buffer_bps = 5`. -/
def slippage_buffer_bps : ℚ := 5

/-- Class-body constant `next_arbitrage_opening_delay = 5` (never read by
the transition code). -/
def next_arbitrage_opening_delay : ℕ := 5

/-- Class-body constant `in_flight_state_tolerance = 60`. -/
def in_flight_state_tolerance : ℕ := 60

/-- Class-body constant `opened_state_tolerance = 60 * 60 * 2`. -/
def opened_state_tolerance : ℕ := 60 * 60 * 2

/-- The `StrategyState` enum of the script: `Closed` (spec: Flat),
`Opening`, `Opened` (spec: Hedged), `Closing`. -/
inductive StrategyState where
  | Closed
  | Opening
  | Opened
  | Closing
deriving DecidableEq, Repr

/-- `PositionAction` from `hummingbot.core.data_type.common` as used by the
script: open new exposure or close existing exposure. -/
inductive PositionAction where
  | OPEN
  | CLOSE
deriving DecidableEq, Repr

/-- Python exceptions that the script's code paths can raise. -/
inductive PyErr where
  | attributeError
  | assertionError
  | zeroDivisionError
  | oracleError
deriving DecidableEq, Repr

/-- An order submitted through `ScriptStrategyBase.buy` / `.sell`:
connector, side, amount, limit price, and the optional `position_action`
keyword (only passed on perpetual legs). -/
structure LegOrder where
  connector : String
  is_buy : Bool
  amount : ℚ
  price : ℚ
  position_action : Option PositionAction
deriving DecidableEq, Repr

/-- The external venues: `price c b` models
`connectors[c].get_price_for_volume(trading_pair, b, base_order_amount).result_price`
(which may fail), `balance c a` models
`connectors[c].get_available_balance(a)`. -/
structure Env where
  price : String → Bool → Except PyErr ℚ
  balance : String → String → ℚ

/-- The strategy's mutable attributes.  `is_position_mode_ready` is the
class attribute read by `on_tick`; `underscore_position_mode_ready` models
the distinct attribute `_position_mode_ready` assigned by
`did_change_position_mode_succeed` (unset at start).  `is_perp_in_long` and
`is_perp_in_short` are the attributes read inside
`buy_spot_short_perp` / `sell_spot_long_perp`; no code in the script ever
assigns them, so they are `none` (reading them raises AttributeError) in
every reachable state. -/
structure BotState where
  is_position_mode_ready : Bool
  underscore_position_mode_ready : Option Bool
  strategy_state : StrategyState
  completed_order_ids : List String
  next_arbitrage_opening_ts : ℕ
  in_flight_state_start_ts : ℕ
  opened_state_start_ts : ℕ
  is_perp_in_long : Option Bool
  is_perp_in_short : Option Bool
  last_submit_order_ts : Option ℕ
deriving DecidableEq, Repr

/-- The state at process start: the class-body attribute values. -/
def initial_state : BotState where
  is_position_mode_ready := false
  underscore_position_mode_ready := none
  strategy_state := StrategyState.Closed
  completed_order_ids := []
  next_arbitrage_opening_ts := 0
  in_flight_state_start_ts := 0
  opened_state_start_ts := 0
  is_perp_in_long := none
  is_perp_in_short := none
  last_submit_order_ts := none

/-- `did_complete_buy_order`: append the completed order's id. -/
def did_complete_buy_order (order_id : String) (s : BotState) : BotState :=
  { s with completed_order_ids := s.completed_order_ids ++ [order_id] }

/-- `did_complete_sell_order`: append the completed order's id. -/
def did_complete_sell_order (order_id : String) (s : BotState) : BotState :=
  { s with completed_order_ids := s.completed_order_ids ++ [order_id] }

/-- `did_change_position_mode_succeed`: assigns `self._position_mode_ready`
(not `is_position_mode_ready`). -/
def did_change_position_mode_succeed (s : BotState) : BotState :=
  { s with underscore_position_mode_ready := some true }

/-- `update_in_flight_state`: `Opening` with exactly 2 completed order ids
becomes `Opened` (records cleared, `opened_state_start_ts` set); `Closing`
with exactly 2 becomes `Closed` with
`next_arbitrage_opening_ts = current_timestamp + next_arbitrage_opening_ts`
(the source adds the previous value of the field, not
`next_arbitrage_opening_delay`) and records cleared. -/
def update_in_flight_state (ts : ℕ) (s : BotState) : BotState :=
  if s.strategy_state = StrategyState.Opening ∧ s.completed_order_ids.length = 2 then
    { s with strategy_state := StrategyState.Opened
             completed_order_ids := []
             opened_state_start_ts := ts }
  else if s.strategy_state = StrategyState.Closing ∧ s.completed_order_ids.length = 2 then
    { s with strategy_state := StrategyState.Closed
             next_arbitrage_opening_ts := ts + s.next_arbitrage_opening_ts
             completed_order_ids := [] }
  else s

/-- `update_static_state`: `Closed` becomes `Opening`, `Opened` becomes
`Closing`; in all cases `in_flight_state_start_ts` is set to now. -/
def update_static_state (ts : ℕ) (s : BotState) : BotState :=
  let s1 :=
    if s.strategy_state = StrategyState.Closed then
      { s with strategy_state := StrategyState.Opening }
    else if s.strategy_state = StrategyState.Opened then
      { s with strategy_state := StrategyState.Closing }
    else s
  { s1 with in_flight_state_start_ts := ts }

/-- `limit_taker_price`: the venue's volume-weighted taker price for the
fixed order size (a connector read, which may fail). -/
def limit_taker_price (env : Env) (connector_name : String) (is_buy : Bool) :
    Except PyErr ℚ :=
  env.price connector_name is_buy

/-- `limit_taker_price_with_slippage`: scale a buy price up by
`1 + slippage_buffer_bps/10000`, a sell price down by
`1 - slippage_buffer_bps/10000`. -/
def limit_taker_price_with_slippage (env : Env) (connector_name : String)
    (is_buy : Bool) : Except PyErr ℚ :=
  match limit_taker_price env connector_name is_buy with
  | Except.error e => Except.error e
  | Except.ok p =>
      Except.ok (p * (if is_buy then 1 + slippage_buffer_bps / 10000
                      else 1 - slippage_buffer_bps / 10000))

/-- `should_buy_spot_short_perp`:
`(perp_sell_price - spot_buy_price) / spot_buy_price * 10000 >= margin`.
A zero spot buy price raises (Decimal division by zero). -/
def should_buy_spot_short_perp (env : Env) : Except PyErr Bool :=
  match limit_taker_price env spot_connector true with
  | Except.error e => Except.error e
  | Except.ok spot_buy_price =>
    match limit_taker_price env perp_connector false with
    | Except.error e => Except.error e
    | Except.ok perp_sell_price =>
        if spot_buy_price = 0 then Except.error PyErr.zeroDivisionError
        else Except.ok (decide ((perp_sell_price - spot_buy_price) / spot_buy_price * 10000
                          ≥ buy_spot_short_perp_profit_margin_bps))

/-- `should_sell_spot_long_perp`:
`(spot_sell_price - perp_buy_price) / perp_buy_price * 10000 >= margin`. -/
def should_sell_spot_long_perp (env : Env) : Except PyErr Bool :=
  match limit_taker_price env spot_connector false with
  | Except.error e => Except.error e
  | Except.ok spot_sell_price =>
    match limit_taker_price env perp_connector true with
    | Except.error e => Except.error e
    | Except.ok perp_buy_price =>
        if perp_buy_price = 0 then Except.error PyErr.zeroDivisionError
        else Except.ok (decide ((spot_sell_price - perp_buy_price) / perp_buy_price * 10000
                          ≥ sell_spot_long_perp_profit_margin_bps))

/-- `get_balance`: for the perpetual connector the code asserts
`not is_base`; otherwise it returns the available balance of the base or
quote asset. -/
def get_balance (env : Env) (connector_name : String) (is_base : Bool) :
    Except PyErr ℚ :=
  if connector_name = perp_connector ∧ is_base = true then
    Except.error PyErr.assertionError
  else
    Except.ok (env.balance connector_name (if is_base then base_asset else quote_asset))

/-- `can_buy_spot_short_perp`: spot quote balance must cover the
slippage-scaled buy price times the order amount, perp quote balance the
unscaled short price times the order amount. -/
def can_buy_spot_short_perp (env : Env) : Except PyErr Bool :=
  match get_balance env spot_connector false with
  | Except.error e => Except.error e
  | Except.ok spot_balance =>
    match limit_taker_price_with_slippage env spot_connector true with
    | Except.error e => Except.error e
    | Except.ok buy_price_with_slippage =>
      let is_spot_enough := decide (spot_balance ≥ buy_price_with_slippage * base_order_amount)
      match get_balance env perp_connector false with
      | Except.error e => Except.error e
      | Except.ok perp_balance =>
        match limit_taker_price env perp_connector false with
        | Except.error e => Except.error e
        | Except.ok short_price =>
            Except.ok (is_spot_enough
              && decide (perp_balance ≥ short_price * base_order_amount))

/-- `can_sell_spot_long_perp`: spot base balance must cover the order
amount, perp quote balance the (unscaled, despite the variable's name)
long price times the order amount. -/
def can_sell_spot_long_perp (env : Env) : Except PyErr Bool :=
  match get_balance env spot_connector true with
  | Except.error e => Except.error e
  | Except.ok spot_balance =>
    let is_spot_enough := decide (spot_balance ≥ base_order_amount)
    match get_balance env perp_connector false with
    | Except.error e => Except.error e
    | Except.ok perp_balance =>
      match limit_taker_price env perp_connector true with
      | Except.error e => Except.error e
      | Except.ok long_price_with_slippage =>
          Except.ok (is_spot_enough
            && decide (perp_balance ≥ long_price_with_slippage * base_order_amount))

/-- Result of a leg-submission routine or of a whole tick: the state after
all mutations that happened, the orders actually submitted, and the
exception that escaped, if any. -/
structure TickResult where
  state : BotState
  orders : List LegOrder
  err : Option PyErr
deriving DecidableEq, Repr

/-- `buy_spot_short_perp`: compute both slippage-adjusted prices, submit the
spot buy leg, then read `self.is_perp_in_long` (never assigned anywhere in
the script) to pick the perp leg's position action — when unset this raises
AttributeError after the spot leg is already out.  On success the perp sell
leg carries the action and `last_submit_order_ts` is set. -/
def buy_spot_short_perp (env : Env) (ts : ℕ) (s : BotState) : TickResult :=
  match limit_taker_price_with_slippage env spot_connector true with
  | Except.error e => ⟨s, [], some e⟩
  | Except.ok spot_buy_price_with_slippage =>
    match limit_taker_price_with_slippage env perp_connector false with
    | Except.error e => ⟨s, [], some e⟩
    | Except.ok perp_short_price_with_slippage =>
      let spot_leg : LegOrder :=
        ⟨spot_connector, true, base_order_amount, spot_buy_price_with_slippage, none⟩
      match s.is_perp_in_long with
      | none => ⟨s, [spot_leg], some PyErr.attributeError⟩
      | some in_long =>
        let position_action :=
          if in_long then PositionAction.CLOSE else PositionAction.OPEN
        let perp_leg : LegOrder :=
          ⟨perp_connector, false, base_order_amount, perp_short_price_with_slippage,
            some position_action⟩
        ⟨{ s with last_submit_order_ts := some ts }, [spot_leg, perp_leg], none⟩

/-- `sell_spot_long_perp`: compute both slippage-adjusted prices, read
`self.is_perp_in_short` (never assigned anywhere in the script) for the
position action — when unset this raises AttributeError before any leg is
submitted.  On success the perp buy leg (with the action) is submitted
first, then the spot sell leg, and `last_submit_order_ts` is set. -/
def sell_spot_long_perp (env : Env) (ts : ℕ) (s : BotState) : TickResult :=
  match limit_taker_price_with_slippage env perp_connector true with
  | Except.error e => ⟨s, [], some e⟩
  | Except.ok perp_long_price_with_slippage =>
    match limit_taker_price_with_slippage env spot_connector false with
    | Except.error e => ⟨s, [], some e⟩
    | Except.ok spot_sell_price_with_slippage =>
      match s.is_perp_in_short with
      | none => ⟨s, [], some PyErr.attributeError⟩
      | some in_short =>
        let position_action :=
          if in_short then PositionAction.CLOSE else PositionAction.OPEN
        let perp_leg : LegOrder :=
          ⟨perp_connector, true, base_order_amount, perp_long_price_with_slippage,
            some position_action⟩
        let spot_leg : LegOrder :=
          ⟨spot_connector, false, base_order_amount, spot_sell_price_with_slippage, none⟩
        ⟨{ s with last_submit_order_ts := some ts }, [perp_leg, spot_leg], none⟩

/-- The `elif` branch of `on_tick`: evaluate `should_sell_spot_long_perp and
can_sell_spot_long_perp`, and on success submit the unwind pair and run
`update_static_state`. -/
def try_sell_branch (env : Env) (ts : ℕ) (s1 : BotState) : TickResult :=
  match should_sell_spot_long_perp env with
  | Except.error e => ⟨s1, [], some e⟩
  | Except.ok false => ⟨s1, [], none⟩
  | Except.ok true =>
    match can_sell_spot_long_perp env with
    | Except.error e => ⟨s1, [], some e⟩
    | Except.ok false => ⟨s1, [], none⟩
    | Except.ok true =>
      let r := sell_spot_long_perp env ts s1
      match r.err with
      | some e => ⟨r.state, r.orders, some e⟩
      | none => ⟨update_static_state ts r.state, r.orders, none⟩

/-- `on_tick`: return unless `is_position_mode_ready`; run
`update_in_flight_state`; return while `Opening`/`Closing` (warning only);
return while `Closed` before `next_arbitrage_opening_ts`; otherwise check
`should_buy_spot_short_perp and can_buy_spot_short_perp` first and act on
it, else (also when the buy direction was profitable but not feasible) fall
through to the sell branch. -/
def on_tick (env : Env) (ts : ℕ) (s : BotState) : TickResult :=
  if s.is_position_mode_ready = false then ⟨s, [], none⟩
  else
    let s1 := update_in_flight_state ts s
    if s1.strategy_state = StrategyState.Opening ∨ s1.strategy_state = StrategyState.Closing then
      ⟨s1, [], none⟩
    else if s1.strategy_state = StrategyState.Closed ∧ ts < s1.next_arbitrage_opening_ts then
      ⟨s1, [], none⟩
    else
      match should_buy_spot_short_perp env with
      | Except.error e => ⟨s1, [], some e⟩
      | Except.ok false => try_sell_branch env ts s1
      | Except.ok true =>
        match can_buy_spot_short_perp env with
        | Except.error e => ⟨s1, [], some e⟩
        | Except.ok false => try_sell_branch env ts s1
        | Except.ok true =>
          let r := buy_spot_short_perp env ts s1
          match r.err with
          | some e => ⟨r.state, r.orders, some e⟩
          | none => ⟨update_static_state ts r.state, r.orders, none⟩

/-- The events the single-threaded strategy processes: scheduler ticks and
the asynchronous callbacks (`did_complete_buy_order`,
`did_complete_sell_order`, position-mode change results). -/
inductive Ev where
  | tick (env : Env) (ts : ℕ)
  | completeBuy (order_id : String)
  | completeSell (order_id : String)
  | positionModeSucceed
  | positionModeFail

/-- One event's effect on the strategy state
(`did_change_position_mode_fail` only logs). -/
def stepState (s : BotState) : Ev → BotState
  | Ev.tick env ts => (on_tick env ts s).state
  | Ev.completeBuy order_id => did_complete_buy_order order_id s
  | Ev.completeSell order_id => did_complete_sell_order order_id s
  | Ev.positionModeSucceed => did_change_position_mode_succeed s
  | Ev.positionModeFail => s

/-- Run a sequence of events from a state. -/
def runTrace (s : BotState) : List Ev → BotState
  | [] => s
  | ev :: rest => runTrace (stepState s ev) rest

/-- Number of leg-completion notifications in an event list. -/
def countCompletions : List Ev → ℕ
  | [] => 0
  | Ev.completeBuy _ :: rest => countCompletions rest + 1
  | Ev.completeSell _ :: rest => countCompletions rest + 1
  | Ev.tick _ _ :: rest => countCompletions rest
  | Ev.positionModeSucceed :: rest => countCompletions rest
  | Ev.positionModeFail :: rest => countCompletions rest

/-- Build a venue environment from four taker prices (spot buy side, spot
sell side, perp buy side, perp sell side) and three balances (spot base,
spot quote, perp quote). -/
def mkEnv (spot_buy spot_sell perp_buy perp_sell : ℚ)
    (spot_base spot_quote perp_quote : ℚ) : Env where
  price := fun c b =>
    if c = spot_connector then (if b then Except.ok spot_buy else Except.ok spot_sell)
    else (if b then Except.ok perp_buy else Except.ok perp_sell)
  balance := fun c a =>
    if c = spot_connector then (if a = base_asset then spot_base else spot_quote)
    else perp_quote

/-- An environment in which only the open direction is profitable:
spot trades at 1, perp at 2 (spread 10000 bps for `BuySpotShortPerp`,
-5000 bps for `SellSpotLongPerp`), all balances ample. -/
def envOpp : Env := mkEnv 1 1 2 2 1000000 1000000 1000000

/-- Non-positive oracle prices: spot buy price -2 and perp sell price -4
(spread formula value 10000 bps). -/
def envNeg : Env := mkEnv (-2) 1 1 (-4) 1000000 1000000 1000000

/-- An environment whose spot-buy price read fails. -/
def envErr : Env where
  price := fun c b =>
    if c = spot_connector ∧ b = true then Except.error PyErr.oracleError
    else Except.ok 1
  balance := fun _ _ => 0

/-- A zero spot-buy price. -/
def envZero : Env := mkEnv 0 1 1 1 0 0 0

/-- Scenario A prices: spot buy 1.0000, perp sell 1.0025. -/
def envScenA : Env := mkEnv 1 1 1 (401 / 400) 1 1 1

/-- A state with position mode ready and everything else at its start
value (strategy state `Closed`). -/
def ready_state : BotState := { initial_state with is_position_mode_ready := true }

/-- Ready, position opened (spec: Hedged), no pending completions. -/
def hedged_state : BotState :=
  { initial_state with is_position_mode_ready := true
                       strategy_state := StrategyState.Opened }

/-- Ready, in `Closing` with both leg completions recorded. -/
def closing_state : BotState :=
  { initial_state with is_position_mode_ready := true
                       strategy_state := StrategyState.Closing
                       completed_order_ids := ["a", "b"] }

/-- Ready, in `Opening` with no completions yet. -/
def opening_state : BotState :=
  { initial_state with is_position_mode_ready := true
                       strategy_state := StrategyState.Opening }

/-- Ready, in `Opening` with both leg completions recorded. -/
def opening_state_full : BotState :=
  { opening_state with completed_order_ids := ["a", "b"] }

/-- The state `update_in_flight_state` produces from `closing_state` at
time 100: `Closed`, with `next_arbitrage_opening_ts = 100 + 0`. -/
def cooldown_state : BotState :=
  { initial_state with is_position_mode_ready := true
                       strategy_state := StrategyState.Closed
                       next_arbitrage_opening_ts := 100 }

/-! Helper lemmas about the embedded operations. -/

lemma connector_ne : perp_connector ≠ spot_connector := by decide

lemma spot_ne_perp : ¬ (spot_connector = perp_connector) := by decide

lemma mkEnv_price_spot (sb ss pb ps b1 q1 p1 : ℚ) (side : Bool) :
    (mkEnv sb ss pb ps b1 q1 p1).price spot_connector side =
      (if side then Except.ok sb else Except.ok ss) := by
  simp [mkEnv]

lemma mkEnv_price_perp (sb ss pb ps b1 q1 p1 : ℚ) (side : Bool) :
    (mkEnv sb ss pb ps b1 q1 p1).price perp_connector side =
      (if side then Except.ok pb else Except.ok ps) := by
  simp [mkEnv, connector_ne]

lemma mkEnv_balance_spot_quote (sb ss pb ps b1 q1 p1 : ℚ) :
    (mkEnv sb ss pb ps b1 q1 p1).balance spot_connector quote_asset = q1 := by
  have h : quote_asset ≠ base_asset := by decide
  simp [mkEnv, h]

lemma mkEnv_balance_perp (sb ss pb ps b1 q1 p1 : ℚ) (asset : String) :
    (mkEnv sb ss pb ps b1 q1 p1).balance perp_connector asset = p1 := by
  simp [mkEnv, connector_ne]

lemma envOpp_spot_buy : envOpp.price spot_connector true = Except.ok 1 := by
  unfold envOpp
  rw [mkEnv_price_spot]
  rfl

lemma envOpp_perp_sell : envOpp.price perp_connector false = Except.ok 2 := by
  unfold envOpp
  rw [mkEnv_price_perp]
  rfl

lemma envOpp_should_buy : should_buy_spot_short_perp envOpp = Except.ok true := by
  unfold should_buy_spot_short_perp limit_taker_price
  rw [envOpp_spot_buy, envOpp_perp_sell]
  norm_num [buy_spot_short_perp_profit_margin_bps]

lemma envOpp_should_sell : should_sell_spot_long_perp envOpp = Except.ok false := by
  unfold should_sell_spot_long_perp limit_taker_price envOpp
  rw [mkEnv_price_spot, mkEnv_price_perp]
  norm_num [sell_spot_long_perp_profit_margin_bps]

lemma envOpp_can_buy : can_buy_spot_short_perp envOpp = Except.ok true := by
  unfold can_buy_spot_short_perp get_balance limit_taker_price_with_slippage limit_taker_price envOpp
  rw [mkEnv_price_spot]
  simp [connector_ne, mkEnv_balance_spot_quote, mkEnv_balance_perp, mkEnv_price_perp]
  norm_num [base_order_amount, slippage_buffer_bps]

lemma envErr_spot_buy : envErr.price spot_connector true = Except.error PyErr.oracleError := by
  simp [envErr]

lemma update_in_flight_state_static (ts : ℕ) (s : BotState)
    (h : s.strategy_state = StrategyState.Opened ∨ s.strategy_state = StrategyState.Closed) :
    update_in_flight_state ts s = s := by
  unfold update_in_flight_state
  rcases h with h | h <;> simp [h]

lemma on_tick_not_ready (env : Env) (ts : ℕ) (s : BotState)
    (h : s.is_position_mode_ready = false) :
    on_tick env ts s = ⟨s, [], none⟩ := by
  unfold on_tick
  simp [h]

lemma on_tick_buy_crash (env : Env) (ts : ℕ) (s : BotState) (ps pp : ℚ)
    (hready : s.is_position_mode_ready = true)
    (hstate : s.strategy_state = StrategyState.Opened ∨
              (s.strategy_state = StrategyState.Closed ∧ ¬ ts < s.next_arbitrage_opening_ts))
    (hps : env.price spot_connector true = Except.ok ps)
    (hpp : env.price perp_connector false = Except.ok pp)
    (hsb : should_buy_spot_short_perp env = Except.ok true)
    (hcb : can_buy_spot_short_perp env = Except.ok true)
    (hlong : s.is_perp_in_long = none) :
    on_tick env ts s = ⟨s, [⟨spot_connector, true, base_order_amount,
        ps * (1 + slippage_buffer_bps / 10000), none⟩], some PyErr.attributeError⟩ := by
  have hupd : update_in_flight_state ts s = s := by
    apply update_in_flight_state_static
    rcases hstate with h | h
    · exact Or.inl h
    · exact Or.inr h.1
  unfold on_tick
  rw [hready]
  simp only [hupd]
  have hbuy : buy_spot_short_perp env ts s = ⟨s, [⟨spot_connector, true, base_order_amount,
      ps * (1 + slippage_buffer_bps / 10000), none⟩], some PyErr.attributeError⟩ := by
    unfold buy_spot_short_perp limit_taker_price_with_slippage limit_taker_price
    rw [hps, hpp]
    simp [hlong]
  rcases hstate with h | h
  · simp [h, hsb, hcb, hbuy]
  · simp [h.1, h.2, hsb, hcb, hbuy]

lemma on_tick_should_buy_error (env : Env) (ts : ℕ) (s : BotState) (e : PyErr)
    (hready : s.is_position_mode_ready = true)
    (hstate : s.strategy_state = StrategyState.Opened ∨
              (s.strategy_state = StrategyState.Closed ∧ ¬ ts < s.next_arbitrage_opening_ts))
    (hsb : should_buy_spot_short_perp env = Except.error e) :
    on_tick env ts s = ⟨s, [], some e⟩ := by
  have hupd : update_in_flight_state ts s = s := by
    apply update_in_flight_state_static
    rcases hstate with h | h
    · exact Or.inl h
    · exact Or.inr h.1
  unfold on_tick
  rw [hready]
  simp only [hupd]
  rcases hstate with h | h
  · simp [h, hsb]
  · simp [h.1, h.2, hsb]

lemma transition_iff (ts : ℕ) (s : BotState) :
    (update_in_flight_state ts s).strategy_state ≠ s.strategy_state ↔
      ((s.strategy_state = StrategyState.Opening ∨ s.strategy_state = StrategyState.Closing) ∧
        s.completed_order_ids.length = 2) := by
  unfold update_in_flight_state
  split
  next h => simp [h.1, h.2]
  next h1 =>
    split
    next h2 => simp [h2.1, h2.2]
    next h2 =>
      simp only [ne_eq, not_true_eq_false, false_iff]
      rintro ⟨hst | hst, hlen⟩
      · exact h1 ⟨hst, hlen⟩
      · exact h2 ⟨hst, hlen⟩

lemma transition_clears (ts : ℕ) (s : BotState)
    (h : (update_in_flight_state ts s).strategy_state ≠ s.strategy_state) :
    (update_in_flight_state ts s).completed_order_ids = [] := by
  unfold update_in_flight_state at *
  split at h
  next h1 => simp [update_in_flight_state, h1.1, h1.2]
  next h1 =>
    split at h
    next h2 => simp [update_in_flight_state, h1, h2.1, h2.2]
    next h2 => exact absurd rfl h

lemma update_in_flight_completed_le (ts : ℕ) (s : BotState) :
    (update_in_flight_state ts s).completed_order_ids.length ≤
      s.completed_order_ids.length := by
  unfold update_in_flight_state
  split
  next h => simp [h.2]
  next =>
    split
    next h => simp [h.2]
    next => exact le_refl _

lemma update_static_completed (ts : ℕ) (s : BotState) :
    (update_static_state ts s).completed_order_ids = s.completed_order_ids := by
  unfold update_static_state
  dsimp only
  split
  · rfl
  · split
    · rfl
    · rfl

lemma buy_state_completed (env : Env) (ts : ℕ) (s : BotState) :
    (buy_spot_short_perp env ts s).state.completed_order_ids = s.completed_order_ids := by
  unfold buy_spot_short_perp
  split
  · rfl
  split
  · rfl
  split
  · rfl
  · rfl

lemma sell_state_completed (env : Env) (ts : ℕ) (s : BotState) :
    (sell_spot_long_perp env ts s).state.completed_order_ids = s.completed_order_ids := by
  unfold sell_spot_long_perp
  split
  · rfl
  split
  · rfl
  split
  · rfl
  · rfl

lemma try_sell_completed (env : Env) (ts : ℕ) (s : BotState) :
    (try_sell_branch env ts s).state.completed_order_ids = s.completed_order_ids := by
  unfold try_sell_branch
  cases hs : should_sell_spot_long_perp env with
  | error e => simp
  | ok b =>
    cases b with
    | false => simp
    | true =>
      cases hc : can_sell_spot_long_perp env with
      | error e => simp
      | ok b2 =>
        cases b2 with
        | false => simp
        | true =>
          dsimp only
          cases he : (sell_spot_long_perp env ts s).err with
          | some e => simp [he, sell_state_completed]
          | none => simp [he, update_static_completed, sell_state_completed]

lemma on_tick_completed_le (env : Env) (ts : ℕ) (s : BotState) :
    (on_tick env ts s).state.completed_order_ids.length ≤
      s.completed_order_ids.length := by
  unfold on_tick
  by_cases h0 : s.is_position_mode_ready = false
  · simp [h0]
  · rw [if_neg h0]
    dsimp only
    by_cases h1 : (update_in_flight_state ts s).strategy_state = StrategyState.Opening ∨
        (update_in_flight_state ts s).strategy_state = StrategyState.Closing
    · rw [if_pos h1]
      exact update_in_flight_completed_le ts s
    · rw [if_neg h1]
      by_cases h2 : (update_in_flight_state ts s).strategy_state = StrategyState.Closed ∧
          ts < (update_in_flight_state ts s).next_arbitrage_opening_ts
      · rw [if_pos h2]
        exact update_in_flight_completed_le ts s
      · rw [if_neg h2]
        cases hsb : should_buy_spot_short_perp env with
        | error e =>
          exact update_in_flight_completed_le ts s
        | ok b =>
          cases b with
          | false =>
            calc (try_sell_branch env ts (update_in_flight_state ts s)).state.completed_order_ids.length
                = (update_in_flight_state ts s).completed_order_ids.length := by
                  rw [try_sell_completed]
              _ ≤ s.completed_order_ids.length := update_in_flight_completed_le ts s
          | true =>
            cases hcb : can_buy_spot_short_perp env with
            | error e => exact update_in_flight_completed_le ts s
            | ok b2 =>
              cases b2 with
              | false =>
                calc (try_sell_branch env ts (update_in_flight_state ts s)).state.completed_order_ids.length
                    = (update_in_flight_state ts s).completed_order_ids.length := by
                      rw [try_sell_completed]
                  _ ≤ s.completed_order_ids.length := update_in_flight_completed_le ts s
              | true =>
                dsimp only
                cases he : (buy_spot_short_perp env ts (update_in_flight_state ts s)).err with
                | some e =>
                  simp only [he]
                  calc (buy_spot_short_perp env ts (update_in_flight_state ts s)).state.completed_order_ids.length
                      = (update_in_flight_state ts s).completed_order_ids.length := by
                        rw [buy_state_completed]
                    _ ≤ s.completed_order_ids.length := update_in_flight_completed_le ts s
                | none =>
                  simp only [he]
                  calc (update_static_state ts (buy_spot_short_perp env ts (update_in_flight_state ts s)).state).completed_order_ids.length
                      = (update_in_flight_state ts s).completed_order_ids.length := by
                        rw [update_static_completed, buy_state_completed]
                    _ ≤ s.completed_order_ids.length := update_in_flight_completed_le ts s

lemma stepState_completed_le (s : BotState) (ev : Ev) :
    (stepState s ev).completed_order_ids.length ≤
      s.completed_order_ids.length + (countCompletions [ev]) := by
  cases ev with
  | tick env ts =>
    simp only [stepState, countCompletions]
    exact Nat.le_add_right_of_le (on_tick_completed_le env ts s)
  | completeBuy oid => simp [stepState, did_complete_buy_order, countCompletions]
  | completeSell oid => simp [stepState, did_complete_sell_order, countCompletions]
  | positionModeSucceed => simp [stepState, did_change_position_mode_succeed, countCompletions]
  | positionModeFail => simp [stepState, countCompletions]

lemma countCompletions_cons (ev : Ev) (evs : List Ev) :
    countCompletions (ev :: evs) = countCompletions [ev] + countCompletions evs := by
  cases ev <;> simp [countCompletions] <;> omega

lemma runTrace_completed_le (evs : List Ev) : ∀ s : BotState,
    (runTrace s evs).completed_order_ids.length ≤
      s.completed_order_ids.length + countCompletions evs := by
  induction evs with
  | nil => intro s; simp [runTrace, countCompletions]
  | cons ev rest ih =>
    intro s
    calc (runTrace (stepState s ev) rest).completed_order_ids.length
        ≤ (stepState s ev).completed_order_ids.length + countCompletions rest := ih _
      _ ≤ s.completed_order_ids.length + countCompletions [ev] + countCompletions rest :=
          Nat.add_le_add_right (stepState_completed_le s ev) _
      _ = s.completed_order_ids.length + countCompletions (ev :: rest) := by
          rw [countCompletions_cons ev rest, Nat.add_assoc]

lemma stepState_ready (s : BotState) (ev : Ev)
    (h : s.is_position_mode_ready = false) :
    (stepState s ev).is_position_mode_ready = false := by
  cases ev with
  | tick env ts =>
    simp only [stepState]
    rw [on_tick_not_ready env ts s h]
    exact h
  | completeBuy oid => simpa [stepState, did_complete_buy_order] using h
  | completeSell oid => simpa [stepState, did_complete_sell_order] using h
  | positionModeSucceed => simpa [stepState, did_change_position_mode_succeed] using h
  | positionModeFail => simpa [stepState] using h

lemma runTrace_ready (evs : List Ev) : ∀ s : BotState,
    s.is_position_mode_ready = false →
    (runTrace s evs).is_position_mode_ready = false := by
  induction evs with
  | nil => intro s h; simpa [runTrace] using h
  | cons ev rest ih =>
    intro s h
    exact ih _ (stepState_ready s ev h)

/-! Claims. -/

/-- C1 counterexample: in state `Opened` (spec: Hedged) with only
`BuySpotShortPerp` profitable and feasible (`SellSpotLongPerp` evaluates
not profitable), `on_tick` does submit an order, contradicting the claim
that no order is submitted and the tick is a no-op in that situation. -/
theorem C1_counterexample :
    should_buy_spot_short_perp envOpp = Except.ok true ∧
    can_buy_spot_short_perp envOpp = Except.ok true ∧
    should_sell_spot_long_perp envOpp = Except.ok false ∧
    hedged_state.strategy_state = StrategyState.Opened ∧
    (on_tick envOpp 10 hedged_state).orders ≠ [] := by
  refine ⟨envOpp_should_buy, envOpp_can_buy, envOpp_should_sell, rfl, ?_⟩
  have h := on_tick_buy_crash envOpp 10 hedged_state 1 2 rfl (Or.inl rfl)
    envOpp_spot_buy envOpp_perp_sell envOpp_should_buy envOpp_can_buy rfl
  rw [h]
  simp

/-- C1 amended: the opportunity path is not gated by direction — in state
`Opened` (Hedged) the tick handler checks `BuySpotShortPerp` first and,
when it is profitable and feasible, acts on it: the open-direction spot buy
leg is submitted, after which reading the never-assigned `is_perp_in_long`
attribute raises AttributeError, so the tick ends with one stray order
submitted and the state still `Opened`. -/
theorem C1_hedged_buy_first (env : Env) (ts : ℕ) (s : BotState) (ps pp : ℚ)
    (hready : s.is_position_mode_ready = true)
    (hstate : s.strategy_state = StrategyState.Opened)
    (hlong : s.is_perp_in_long = none)
    (hps : env.price spot_connector true = Except.ok ps)
    (hpp : env.price perp_connector false = Except.ok pp)
    (hsb : should_buy_spot_short_perp env = Except.ok true)
    (hcb : can_buy_spot_short_perp env = Except.ok true) :
    on_tick env ts s = ⟨s, [⟨spot_connector, true, base_order_amount,
        ps * (1 + slippage_buffer_bps / 10000), none⟩], some PyErr.attributeError⟩ :=
  on_tick_buy_crash env ts s ps pp hready (Or.inl hstate) hps hpp hsb hcb hlong

/-- C1 witness: the amended statement evaluated in the Hedged state with
the open direction profitable and feasible. -/
theorem C1_hedged_buy_first_witness :
    on_tick envOpp 10 hedged_state = ⟨hedged_state,
      [⟨spot_connector, true, base_order_amount,
        1 * (1 + slippage_buffer_bps / 10000), none⟩], some PyErr.attributeError⟩ :=
  C1_hedged_buy_first envOpp 10 hedged_state 1 2 rfl rfl rfl
    envOpp_spot_buy envOpp_perp_sell envOpp_should_buy envOpp_can_buy

/-- C2: the code recomputes the reopen timestamp as
`current_timestamp + next_arbitrage_opening_ts` (the previous field value,
initially 0), not `current_timestamp + next_arbitrage_opening_delay`.
Closing both legs at T = 100 yields `next_arbitrage_opening_ts = 100`,
not `105`, and a profitable, feasible `BuySpotShortPerp` opportunity at
T + 3 = 103 is acted on (an order is submitted) instead of being
suppressed until T + 5. -/
theorem C2_cooldown_compounds :
    (update_in_flight_state 100 closing_state).strategy_state = StrategyState.Closed ∧
    (update_in_flight_state 100 closing_state).next_arbitrage_opening_ts = 100 ∧
    (update_in_flight_state 100 closing_state).next_arbitrage_opening_ts ≠
      100 + next_arbitrage_opening_delay ∧
    (on_tick envOpp 103 (update_in_flight_state 100 closing_state)).orders ≠ [] := by
  have hu : update_in_flight_state 100 closing_state = cooldown_state := by decide
  refine ⟨by decide, by decide, by decide, ?_⟩
  rw [hu]
  have h := on_tick_buy_crash envOpp 103 cooldown_state 1 2 rfl
    (Or.inr ⟨rfl, by decide⟩) envOpp_spot_buy envOpp_perp_sell
    envOpp_should_buy envOpp_can_buy rfl
  rw [h]
  simp

/-- C3 counterexample: two completion notifications carrying the same
order id `"a"` are both counted — from `Opening` with no records, they
alone drive the `Opening → Opened` transition, so deduplication by order
identity does not happen. -/
theorem C3_counterexample :
    (update_in_flight_state 50 (did_complete_buy_order "a"
      (did_complete_buy_order "a" opening_state))).strategy_state =
        StrategyState.Opened := by
  decide

/-- C3 amended: completion notifications are appended to
`completed_order_ids` without deduplication, so two notifications with the
same order id count as two completions and alone satisfy the 2-completion
threshold out of `Opening`. -/
theorem C3_duplicates_drive_transition (ts : ℕ) (oid : String) (s : BotState)
    (hst : s.strategy_state = StrategyState.Opening)
    (hc : s.completed_order_ids = []) :
    (update_in_flight_state ts (did_complete_buy_order oid
      (did_complete_buy_order oid s))).strategy_state = StrategyState.Opened := by
  unfold update_in_flight_state did_complete_buy_order
  simp [hst, hc]

/-- C3 witness: the amended statement at a concrete state and order id. -/
theorem C3_duplicates_drive_transition_witness :
    (update_in_flight_state 60 (did_complete_buy_order "b"
      (did_complete_buy_order "b" opening_state))).strategy_state =
        StrategyState.Opened :=
  C3_duplicates_drive_transition 60 "b" opening_state rfl rfl

/-- C4: a transition out of `Opening` (to `Opened`) or out of `Closing`
(to `Closed`) happens at `update_in_flight_state` exactly when the count of
recorded completions is 2; every such transition clears the record list;
and along any event trace delivering at most 2 completion notifications
from a cleared state, the record list never exceeds 2 entries. -/
theorem C4_records_invariant (ts : ℕ) (s : BotState) (evs : List Ev) :
    ((update_in_flight_state ts s).strategy_state ≠ s.strategy_state ↔
      ((s.strategy_state = StrategyState.Opening ∨
        s.strategy_state = StrategyState.Closing) ∧
        s.completed_order_ids.length = 2)) ∧
    ((update_in_flight_state ts s).strategy_state ≠ s.strategy_state →
      (update_in_flight_state ts s).completed_order_ids = []) ∧
    (s.completed_order_ids = [] → countCompletions evs ≤ 2 →
      (runTrace s evs).completed_order_ids.length ≤ 2) := by
  refine ⟨transition_iff ts s, transition_clears ts s, fun h1 h2 => ?_⟩
  calc (runTrace s evs).completed_order_ids.length
      ≤ s.completed_order_ids.length + countCompletions evs := runTrace_completed_le evs s
    _ ≤ 2 := by rw [h1]; simpa using h2

/-- C4 witness: the transition out of `Opening` with 2 records clears the
record list, and a trace delivering the two leg completions never exceeds
2 records. -/
theorem C4_records_invariant_witness :
    (update_in_flight_state 7 opening_state_full).completed_order_ids = [] ∧
    (runTrace opening_state
      [Ev.completeBuy "a", Ev.completeSell "b"]).completed_order_ids.length ≤ 2 := by
  constructor
  · exact (C4_records_invariant 7 opening_state_full []).2.1 (by decide)
  · exact (C4_records_invariant 0 opening_state
      [Ev.completeBuy "a", Ev.completeSell "b"]).2.2 rfl (by decide)

/-- C5 counterexample: with non-positive oracle prices (spot buy -2, perp
sell -4) the detector reports `BuySpotShortPerp` profitable rather than
not-profitable; and when the spot-buy price read fails, the error
propagates out of `on_tick` (here from the Hedged state) rather than being
swallowed. -/
theorem C5_counterexample :
    (-2 : ℚ) ≤ 0 ∧
    should_buy_spot_short_perp envNeg = Except.ok true ∧
    should_buy_spot_short_perp envErr = Except.error PyErr.oracleError ∧
    (on_tick envErr 0 hedged_state).err = some PyErr.oracleError := by
  have hsbNeg : should_buy_spot_short_perp envNeg = Except.ok true := by
    unfold should_buy_spot_short_perp limit_taker_price envNeg
    rw [mkEnv_price_spot, mkEnv_price_perp]
    norm_num [buy_spot_short_perp_profit_margin_bps]
  have hsbErr : should_buy_spot_short_perp envErr = Except.error PyErr.oracleError := by
    unfold should_buy_spot_short_perp limit_taker_price
    rw [envErr_spot_buy]
  refine ⟨by norm_num, hsbNeg, hsbErr, ?_⟩
  rw [on_tick_should_buy_error envErr 0 hedged_state PyErr.oracleError rfl
    (Or.inl rfl) hsbErr]

/-- C5 amended: the detector applies the spread formula to whatever prices
the oracle returns, with no non-positivity guard — a failing spot-buy read
makes `should_buy_spot_short_perp` raise that error, a zero spot-buy price
raises a division error, any non-zero prices (positive or not) are fed to
the formula, and an evaluation error propagates out of `on_tick` instead
of being treated as not-profitable. -/
theorem C5_no_price_guard (env : Env) (e : PyErr) (spot_buy perp_sell : ℚ) :
    (env.price spot_connector true = Except.error e →
      should_buy_spot_short_perp env = Except.error e) ∧
    (env.price spot_connector true = Except.ok 0 →
      env.price perp_connector false = Except.ok perp_sell →
      should_buy_spot_short_perp env = Except.error PyErr.zeroDivisionError) ∧
    (env.price spot_connector true = Except.ok spot_buy →
      env.price perp_connector false = Except.ok perp_sell → spot_buy ≠ 0 →
      should_buy_spot_short_perp env = Except.ok
        (decide ((perp_sell - spot_buy) / spot_buy * 10000
          ≥ buy_spot_short_perp_profit_margin_bps))) ∧
    (∀ ts : ℕ, ∀ s : BotState, s.is_position_mode_ready = true →
      s.strategy_state = StrategyState.Opened →
      env.price spot_connector true = Except.error e →
      (on_tick env ts s).err = some e) := by
  refine ⟨?_, ?_, ?_, ?_⟩
  · intro h
    unfold should_buy_spot_short_perp limit_taker_price
    rw [h]
  · intro h1 h2
    unfold should_buy_spot_short_perp limit_taker_price
    rw [h1, h2]
    simp
  · intro h1 h2 hne
    unfold should_buy_spot_short_perp limit_taker_price
    rw [h1, h2]
    dsimp only
    rw [if_neg hne]
  · intro ts s hready hstate h
    have hsb : should_buy_spot_short_perp env = Except.error e := by
      unfold should_buy_spot_short_perp limit_taker_price
      rw [h]
    rw [on_tick_should_buy_error env ts s e hready (Or.inl hstate) hsb]

/-- C5 witness: the amended statement evaluated at a failing read, at a
zero price, at non-positive prices, and propagated through a Hedged-state
tick. -/
theorem C5_no_price_guard_witness :
    should_buy_spot_short_perp envErr = Except.error PyErr.oracleError ∧
    should_buy_spot_short_perp envZero = Except.error PyErr.zeroDivisionError ∧
    should_buy_spot_short_perp envNeg = Except.ok
      (decide (((-4 : ℚ) - (-2)) / (-2) * 10000
        ≥ buy_spot_short_perp_profit_margin_bps)) ∧
    (on_tick envErr 5 hedged_state).err = some PyErr.oracleError := by
  refine ⟨?_, ?_, ?_, ?_⟩
  · exact (C5_no_price_guard envErr PyErr.oracleError 0 0).1 envErr_spot_buy
  · refine (C5_no_price_guard envZero PyErr.oracleError 0 1).2.1 ?_ ?_
    · unfold envZero
      rw [mkEnv_price_spot]
      rfl
    · unfold envZero
      rw [mkEnv_price_perp]
      rfl
  · refine (C5_no_price_guard envNeg PyErr.oracleError (-2) (-4)).2.2.1 ?_ ?_ (by norm_num)
    · unfold envNeg
      rw [mkEnv_price_spot]
      rfl
    · unfold envNeg
      rw [mkEnv_price_perp]
      rfl
  · exact (C5_no_price_guard envErr PyErr.oracleError 0 0).2.2.2 5 hedged_state
      rfl rfl envErr_spot_buy

/-- C6: in every reachable execution (any sequence of ticks, completion
callbacks and position-mode callbacks from the initial state) the trading
gate `is_position_mode_ready` stays `false` — the success callback assigns
the differently named `_position_mode_ready` — so every `on_tick` returns
immediately with no state change, no submitted order, and no error. -/
theorem C6_gate_never_set (evs : List Ev) (env : Env) (ts : ℕ) :
    (runTrace initial_state evs).is_position_mode_ready = false ∧
    on_tick env ts (runTrace initial_state evs) =
      ⟨runTrace initial_state evs, [], none⟩ ∧
    (on_tick env ts (runTrace initial_state evs)).orders = [] := by
  have h := runTrace_ready evs initial_state rfl
  have h2 := on_tick_not_ready env ts (runTrace initial_state evs) h
  exact ⟨h, h2, by rw [h2]⟩

/-- C7: for positive oracle prices the detector computes exactly
`(perp_sell - spot_buy) / spot_buy * 10000` for `BuySpotShortPerp` and
`(spot_sell - perp_buy) / perp_buy * 10000` for `SellSpotLongPerp`, and
reports a direction profitable iff its spread is at least that direction's
configured margin in basis points. -/
theorem C7_spread_formula (env : Env) (spot_buy perp_sell spot_sell perp_buy : ℚ)
    (h1 : env.price spot_connector true = Except.ok spot_buy)
    (h2 : env.price perp_connector false = Except.ok perp_sell)
    (h3 : env.price spot_connector false = Except.ok spot_sell)
    (h4 : env.price perp_connector true = Except.ok perp_buy)
    (hp1 : 0 < spot_buy) (hp2 : 0 < perp_sell)
    (hp3 : 0 < spot_sell) (hp4 : 0 < perp_buy) :
    should_buy_spot_short_perp env =
      Except.ok (decide ((perp_sell - spot_buy) / spot_buy * 10000
        ≥ buy_spot_short_perp_profit_margin_bps)) ∧
    should_sell_spot_long_perp env =
      Except.ok (decide ((spot_sell - perp_buy) / perp_buy * 10000
        ≥ sell_spot_long_perp_profit_margin_bps)) ∧
    (should_buy_spot_short_perp env = Except.ok true ↔
      (perp_sell - spot_buy) / spot_buy * 10000 ≥ buy_spot_short_perp_profit_margin_bps) ∧
    (should_sell_spot_long_perp env = Except.ok true ↔
      (spot_sell - perp_buy) / perp_buy * 10000 ≥ sell_spot_long_perp_profit_margin_bps) := by
  have e1 : should_buy_spot_short_perp env =
      Except.ok (decide ((perp_sell - spot_buy) / spot_buy * 10000
        ≥ buy_spot_short_perp_profit_margin_bps)) := by
    unfold should_buy_spot_short_perp limit_taker_price
    rw [h1, h2]
    dsimp only
    rw [if_neg (ne_of_gt hp1)]
  have e2 : should_sell_spot_long_perp env =
      Except.ok (decide ((spot_sell - perp_buy) / perp_buy * 10000
        ≥ sell_spot_long_perp_profit_margin_bps)) := by
    unfold should_sell_spot_long_perp limit_taker_price
    rw [h3, h4]
    dsimp only
    rw [if_neg (ne_of_gt hp4)]
  refine ⟨e1, e2, ?_, ?_⟩
  · rw [e1]
    simp [decide_eq_true_iff]
  · rw [e2]
    simp [decide_eq_true_iff]

/-- C7 witness: scenario A — spot buy 1.0000, perp sell 1.0025, margin 20
bps: the spread is 25 bps and the open direction is profitable. -/
theorem C7_spread_formula_witness :
    should_buy_spot_short_perp envScenA = Except.ok true := by
  have h := C7_spread_formula envScenA 1 (401 / 400) 1 1
    (by unfold envScenA; rw [mkEnv_price_spot]; rfl)
    (by unfold envScenA; rw [mkEnv_price_perp]; rfl)
    (by unfold envScenA; rw [mkEnv_price_spot]; rfl)
    (by unfold envScenA; rw [mkEnv_price_perp]; rfl)
    (by norm_num) (by norm_num) (by norm_num) (by norm_num)
  exact h.2.2.1.mpr (by norm_num [buy_spot_short_perp_profit_margin_bps])

/-- C8: `can_buy_spot_short_perp` returns true iff the spot quote balance
is at least the spot taker-buy price scaled by
`1 + slippage_buffer_bps / 10000` times the order size, and the perp quote
balance is at least the unscaled perp taker-sell price times the order
size. -/
theorem C8_buy_feasibility (env : Env) (spot_buy perp_sell : ℚ)
    (h1 : env.price spot_connector true = Except.ok spot_buy)
    (h2 : env.price perp_connector false = Except.ok perp_sell) :
    can_buy_spot_short_perp env = Except.ok true ↔
      (env.balance spot_connector quote_asset ≥
          spot_buy * (1 + slippage_buffer_bps / 10000) * base_order_amount ∧
        env.balance perp_connector quote_asset ≥ perp_sell * base_order_amount) := by
  unfold can_buy_spot_short_perp get_balance limit_taker_price_with_slippage limit_taker_price
  rw [h1, h2]
  simp [spot_ne_perp, decide_eq_true_iff]

/-- C8 witness: with spot buy price 1, perp sell price 2 and ample
balances, the feasibility check passes. -/
theorem C8_buy_feasibility_witness :
    can_buy_spot_short_perp envOpp = Except.ok true := by
  refine (C8_buy_feasibility envOpp 1 2 envOpp_spot_buy envOpp_perp_sell).mpr ⟨?_, ?_⟩
  · rw [show envOpp.balance spot_connector quote_asset = 1000000 from
      mkEnv_balance_spot_quote 1 1 2 2 1000000 1000000 1000000]
    norm_num [slippage_buffer_bps, base_order_amount]
  · rw [show envOpp.balance perp_connector quote_asset = 1000000 from
      mkEnv_balance_perp 1 1 2 2 1000000 1000000 1000000 quote_asset]
    norm_num [base_order_amount]

/-- C9: the perpetual leg's position action is computed from the attributes
`is_perp_in_long` / `is_perp_in_short`, which no code in the script ever
assigns; at the first opening (and at any unwind) reading them raises
AttributeError, so no perpetual leg with a position action is ever
submitted: `buy_spot_short_perp` crashes after submitting only the spot
leg, `sell_spot_long_perp` crashes before submitting anything, and the full
tick from the ready `Closed` state ends with the AttributeError escaped. -/
theorem C9_position_action_crash :
    ready_state.is_perp_in_long = none ∧
    ready_state.is_perp_in_short = none ∧
    buy_spot_short_perp envOpp 0 ready_state =
      ⟨ready_state, [⟨spot_connector, true, base_order_amount,
        1 * (1 + slippage_buffer_bps / 10000), none⟩], some PyErr.attributeError⟩ ∧
    sell_spot_long_perp envOpp 0 ready_state =
      ⟨ready_state, [], some PyErr.attributeError⟩ ∧
    (on_tick envOpp 0 ready_state).err = some PyErr.attributeError := by
  refine ⟨rfl, rfl, ?_, ?_, ?_⟩
  · unfold buy_spot_short_perp limit_taker_price_with_slippage limit_taker_price envOpp
    rw [mkEnv_price_spot, mkEnv_price_perp]
    simp [ready_state, initial_state]
  · unfold sell_spot_long_perp limit_taker_price_with_slippage limit_taker_price envOpp
    rw [mkEnv_price_spot, mkEnv_price_perp]
    simp [ready_state, initial_state]
  · rw [on_tick_buy_crash envOpp 0 ready_state 1 2 rfl
      (Or.inr ⟨rfl, by decide⟩) envOpp_spot_buy envOpp_perp_sell
      envOpp_should_buy envOpp_can_buy rfl]

/-- C10: calling `get_balance` with the perpetual connector and
`is_base = true` always fails the assertion; in every other case the
assertion branch is not taken and the venue's available balance of the
selected asset is returned. -/
theorem C10_perp_base_assert (env : Env) (c : String) (b : Bool) :
    get_balance env perp_connector true = Except.error PyErr.assertionError ∧
    (¬ (c = perp_connector ∧ b = true) →
      get_balance env c b =
        Except.ok (env.balance c (if b then base_asset else quote_asset))) := by
  constructor
  · unfold get_balance
    simp
  · intro h
    unfold get_balance
    rw [if_neg h]

/-- C10 witness: the assertion fires for the perpetual connector with
`is_base = true`, and the spot quote balance is returned normally. -/
theorem C10_perp_base_assert_witness :
    get_balance envOpp perp_connector true = Except.error PyErr.assertionError ∧
    get_balance envOpp spot_connector false =
      Except.ok (envOpp.balance spot_connector
        (if false then base_asset else quote_asset)) :=
  ⟨(C10_perp_base_assert envOpp spot_connector false).1,
    (C10_perp_base_assert envOpp spot_connector false).2 (by decide)⟩
